import Mathlib

/-!
Verification of the Philippines Barangay Explorer query engine
(`src/main.py`) against its natural-language specification.

The Dataset is a four-level nested mapping: region name → province name →
municipality name → ordered list of barangay names.  Python dicts are
embedded as association lists in iteration (insertion) order; dict
membership and indexing become `mapGet`.  `str.lower()` is embedded as
per-character `Char.toLower` over the string's character list, and the
Python substring operator `in` as `containsChars`.

Two dataset types are used:
* `Dataset` — the well-formed shape of spec §3 (every municipalities value
  is a mapping, every barangays value is a list).  On this type the
  source's `isinstance(municipalities, dict)` and `isinstance(barangays,
  list)` guards are identically true, so the embeddings of
  `search_barangay` / `get_stats` omit them.
* `RawDataset` — the defensive shape actually handled by the source, where
  a province's municipalities value may fail `isinstance(_, dict)`
  (embedded as `none`) and a municipality's barangays value may fail
  `isinstance(_, list)` (embedded as `none`).  `search_barangay_raw` and
  `get_stats_raw` embed the guards literally.
-/

namespace BarangayExplorer

/-- One level of a Python dict: an association list of key/value pairs in
insertion order. -/
abbrev Assoc (β : Type) := List (String × β)

/-- Well-formed Dataset of spec §3: region → province → municipality →
barangay-name list. -/
abbrev Dataset := Assoc (Assoc (Assoc (List String)))

/-- Barangays value of a municipality in the raw shape: `some bs` when the
stored value is a list of strings, `none` when `isinstance(barangays, list)`
is false. -/
abbrev RawBarangays := Option (List String)

/-- Municipalities value of a province in the raw shape: `some ms` when the
stored value is a dict, `none` when `isinstance(municipalities, dict)` is
false. -/
abbrev RawMunicipalities := Option (Assoc RawBarangays)

/-- Dataset shape as defensively handled by `search_barangay` and
`get_stats` in the source. -/
abbrev RawDataset := Assoc (Assoc RawMunicipalities)

/-- Python dict lookup: `m[k]` returns the value of the (unique) binding of
`k`; `none` means `k not in m`.  On an association list this finds the
first binding. -/
def mapGet {β : Type} (m : Assoc β) (k : String) : Option β :=
  match m with
  | [] => none
  | (k', v) :: rest => if k' = k then some v else mapGet rest k

/-- Typed errors of the query engine, carrying exactly the identifiers the
source interpolates into its HTTP 404 details (lines 34, 42/45, 53/56/59
and 83 of `src/main.py`). -/
inductive Err where
  /-- Region `r` is not a key of the Dataset. -/
  | notFoundRegion (r : String)
  /-- Province `p` is not found in region `r`. -/
  | notFoundProvince (r p : String)
  /-- Municipality `m` is not found in province `p`. -/
  | notFoundMunicipality (p m : String)
  /-- No barangays found containing the query. -/
  | noMatches (query : String)
deriving Repr, DecidableEq

/-- One record of a search response (lines 75–80 of `src/main.py`). -/
structure SearchResult where
  barangay : String
  municipality : String
  province : String
  region : String
deriving Repr, DecidableEq

/-- The search endpoint's success payload (line 85 of `src/main.py`). -/
structure SearchOutput where
  query : String
  results : List SearchResult
  count : Nat
deriving Repr, DecidableEq

/-- The stats endpoint's payload (lines 103–108 of `src/main.py`). -/
structure Stats where
  total_regions : Nat
  total_provinces : Nat
  total_municipalities : Nat
  total_barangays : Nat
  data_source : String
deriving Repr, DecidableEq

/-- Python `str.lower()` applied characterwise (ASCII case folding), as a
character list. -/
def lowerChars (s : String) : List Char := s.data.map Char.toLower

/-- Decides whether `needle` occurs as a prefix of `hay` (character-exact). -/
def isPrefixOfChars : List Char → List Char → Bool
  | [], _ => true
  | _ :: _, [] => false
  | c :: cs, h :: hs => c = h && isPrefixOfChars cs hs

/-- Python's substring operator `needle in hay`: `needle` occurs
contiguously somewhere in `hay`; the empty needle occurs in everything. -/
def containsChars (needle : List Char) : List Char → Bool
  | [] => isPrefixOfChars needle []
  | h :: hs => isPrefixOfChars needle (h :: hs) || containsChars needle hs

/-- The source's match predicate `barangay_name.lower() in b.lower()`
(line 73 of `src/main.py`): case-insensitive substring containment of the
query in the barangay name. -/
def matchesQuery (query b : String) : Bool :=
  containsChars (lowerChars query) (lowerChars b)

/-- Endpoint `GET /regions` (lines 25–28): `list(barangay.BARANGAY.keys())`. -/
def get_regions (d : Dataset) : List String := d.map Prod.fst

/-- Endpoint `GET /regions/{r}/provinces` (lines 30–36): 404 when the
region is not a key, else the region's province keys in stored order. -/
def get_provinces (d : Dataset) (region_name : String) :
    Except Err (List String) :=
  match mapGet d region_name with
  | none => .error (.notFoundRegion region_name)
  | some provinces => .ok (provinces.map Prod.fst)

/-- Endpoint `GET /regions/{r}/provinces/{p}/municipalities`
(lines 38–47): checks region then province, else returns the province's
municipality keys in stored order. -/
def get_municipalities (d : Dataset) (region_name province_name : String) :
    Except Err (List String) :=
  match mapGet d region_name with
  | none => .error (.notFoundRegion region_name)
  | some provinces =>
    match mapGet provinces province_name with
    | none => .error (.notFoundProvince region_name province_name)
    | some municipalities => .ok (municipalities.map Prod.fst)

/-- Endpoint
`GET /regions/{r}/provinces/{p}/municipalities/{m}/barangays`
(lines 49–61): checks region, then province, then municipality, in that
order, else returns the stored barangay list. -/
def get_barangays (d : Dataset)
    (region_name province_name municipality_name : String) :
    Except Err (List String) :=
  match mapGet d region_name with
  | none => .error (.notFoundRegion region_name)
  | some provinces =>
    match mapGet provinces province_name with
    | none => .error (.notFoundProvince region_name province_name)
    | some municipalities =>
      match mapGet municipalities municipality_name with
      | none =>
        .error (.notFoundMunicipality province_name municipality_name)
      | some barangays => .ok barangays

/-- The `results` list built by the nested loops of `search_barangay`
(lines 66–80 of `src/main.py`), on the well-formed Dataset, where both
`isinstance` guards are identically true: for each region, province and
municipality in order, append one record per matching barangay. -/
def searchResults (d : Dataset) (barangay_name : String) :
    List SearchResult :=
  d.foldl (fun acc rp =>
    rp.2.foldl (fun acc pp =>
      pp.2.foldl (fun acc mp =>
        ((mp.2.filter fun b => matchesQuery barangay_name b).foldl
          (fun acc b => acc ++ [⟨b, mp.1, pp.1, rp.1⟩]) acc)) acc) acc) []

/-- Endpoint `GET /search/barangay/{barangay_name}` (lines 63–85): build
the results list; 404 if it is empty, else return query, results and
count. -/
def search_barangay (d : Dataset) (barangay_name : String) :
    Except Err SearchOutput :=
  let results := searchResults d barangay_name
  if results = [] then .error (.noMatches barangay_name)
  else .ok ⟨barangay_name, results, results.length⟩

/-- The constant `data_source` string of the stats payload (line 107). -/
def dataSourceStr : String :=
  "Philippines Standard Geographic Code (PSGC) 2025"

/-- Endpoint `GET /stats` (lines 87–109) on the well-formed Dataset, where
both `isinstance` guards are identically true: region count, summed
province count, and an accumulating pass for municipality and barangay
counts. -/
def get_stats (d : Dataset) : Stats :=
  let total_regions := d.length
  let total_provinces := (d.map fun rp => rp.2.length).sum
  let mb := d.foldl (fun acc rp =>
    rp.2.foldl (fun acc pp =>
      pp.2.foldl (fun acc mp => (acc.1, acc.2 + mp.2.length))
        (acc.1 + pp.2.length, acc.2)) acc) ((0 : Nat), (0 : Nat))
  ⟨total_regions, total_provinces, mb.1, mb.2, dataSourceStr⟩

/-- The `results` list built by `search_barangay` (lines 66–80) on the raw
shape, embedding the `isinstance(municipalities, dict)` (line 70) and
`isinstance(barangays, list)` (line 72) guards literally: a `none` value is
skipped. -/
def searchResultsRaw (d : RawDataset) (barangay_name : String) :
    List SearchResult :=
  d.foldl (fun acc rp =>
    rp.2.foldl (fun acc pp =>
      match pp.2 with
      | none => acc
      | some municipalities =>
        municipalities.foldl (fun acc mp =>
          match mp.2 with
          | none => acc
          | some barangays =>
            ((barangays.filter fun b => matchesQuery barangay_name b).foldl
              (fun acc b => acc ++ [⟨b, mp.1, pp.1, rp.1⟩]) acc)) acc) acc)
    []

/-- Endpoint `GET /search/barangay/{barangay_name}` on the raw shape. -/
def search_barangay_raw (d : RawDataset) (barangay_name : String) :
    Except Err SearchOutput :=
  let results := searchResultsRaw d barangay_name
  if results = [] then .error (.noMatches barangay_name)
  else .ok ⟨barangay_name, results, results.length⟩

/-- Endpoint `GET /stats` (lines 87–109) on the raw shape, embedding both
`isinstance` guards (lines 97 and 100) literally: `total_provinces` counts
every province value, `total_municipalities` only dict values, and
`total_barangays` only list values. -/
def get_stats_raw (d : RawDataset) : Stats :=
  let total_regions := d.length
  let total_provinces := (d.map fun rp => rp.2.length).sum
  let mb := d.foldl (fun acc rp =>
    rp.2.foldl (fun acc pp =>
      match pp.2 with
      | none => acc
      | some municipalities =>
        municipalities.foldl (fun acc mp =>
          match mp.2 with
          | none => acc
          | some barangays => (acc.1, acc.2 + barangays.length))
          (acc.1 + municipalities.length, acc.2)) acc) ((0 : Nat), (0 : Nat))
  ⟨total_regions, total_provinces, mb.1, mb.2, dataSourceStr⟩

/-- Replaces each malformed value of a raw dataset by an empty collection:
a non-dict municipalities value becomes an empty municipality map, a
non-list barangays value becomes an empty barangay list.  Well-formed
subtrees are kept unchanged. -/
def pruneRaw (d : RawDataset) : Dataset :=
  d.map fun rp => (rp.1, rp.2.map fun pp =>
    (pp.1, match pp.2 with
      | none => []
      | some municipalities =>
        municipalities.map fun mp => (mp.1, mp.2.getD [])))

/-- Spec §4.2's description of search output: regions in Dataset order,
then provinces, municipalities and barangays in stored order, one record
per matching occurrence. -/
def searchSpec (d : Dataset) (query : String) : List SearchResult :=
  d.flatMap fun rp => rp.2.flatMap fun pp => pp.2.flatMap fun mp =>
    (mp.2.filter fun b => matchesQuery query b).map
      fun b => ⟨b, mp.1, pp.1, rp.1⟩

/-- Every barangay occurrence of the Dataset as a search record, in
traversal order (what spec §8 says `search("")` returns). -/
def allBarangayRecords (d : Dataset) : List SearchResult :=
  d.flatMap fun rp => rp.2.flatMap fun pp => pp.2.flatMap fun mp =>
    mp.2.map fun b => ⟨b, mp.1, pp.1, rp.1⟩

/-- All barangay name occurrences of the Dataset, in traversal order. -/
def barangayLeaves (d : Dataset) : List String :=
  d.flatMap fun rp => rp.2.flatMap fun pp => pp.2.flatMap fun mp => mp.2

/-- Key uniqueness among siblings at every level — the Dataset invariant
of spec §3, automatic for Python dicts. -/
def NodupKeys (d : Dataset) : Prop :=
  (d.map Prod.fst).Nodup ∧
  ∀ rp ∈ d, (rp.2.map Prod.fst).Nodup ∧
    ∀ pp ∈ rp.2, (pp.2.map Prod.fst).Nodup

instance (d : Dataset) : Decidable (NodupKeys d) := by
  unfold NodupKeys; infer_instance

/-- Extracts a successful lookup result, defaulting errors to the empty
list.  During the enumeration of `enumBarangayTotal` every lookup in fact
succeeds, so this is pure extraction there. -/
def okOrEmpty (e : Except Err (List String)) : List String :=
  match e with
  | .ok l => l
  | .error _ => []

/-- Spec §8's enumeration sum: the total of `listBarangays(r,p,m)` lengths
over every triple enumerable via `listRegions`, `listProvinces` and
`listMunicipalities`. -/
def enumBarangayTotal (d : Dataset) : Nat :=
  ((get_regions d).map fun r =>
    ((okOrEmpty (get_provinces d r)).map fun p =>
      ((okOrEmpty (get_municipalities d r p)).map fun m =>
        (okOrEmpty (get_barangays d r p m)).length).sum).sum).sum

/-- Barangay total of one municipality map, enumerated through its own
keys and lookups. -/
def enumMunTotal (muns : Assoc (List String)) : Nat :=
  ((muns.map Prod.fst).map fun m =>
    match mapGet muns m with
    | none => 0
    | some bs => bs.length).sum

/-- Barangay total of one province map, enumerated through its own keys
and lookups. -/
def enumProvTotal (provs : Assoc (Assoc (List String))) : Nat :=
  ((provs.map Prod.fst).map fun p =>
    match mapGet provs p with
    | none => 0
    | some muns => enumMunTotal muns).sum

/-- A small concrete Dataset (the scenario of spec §8, extended by a
second region) used to instantiate the theorems. -/
def exampleDataset : Dataset :=
  [("RegionA", [("ProvinceX",
     [("MunicipalityY", ["North Poblacion", "South Poblacion"])])]),
   ("RegionB", [("ProvinceZ",
     [("MunicipalityW", ["Poblacion", "San Isidro"])])])]

/-- The records `search_barangay exampleDataset "poblacion"` returns, in
traversal order. -/
def examplePoblacionResults : List SearchResult :=
  [⟨"North Poblacion", "MunicipalityY", "ProvinceX", "RegionA"⟩,
   ⟨"South Poblacion", "MunicipalityY", "ProvinceX", "RegionA"⟩,
   ⟨"Poblacion", "MunicipalityW", "ProvinceZ", "RegionB"⟩]

/-! ### Fold normalisation lemmas -/

/-- Appending one mapped element at a time is mapping. -/
lemma foldl_append_one {α β : Type} (g : α → β) (l : List α) :
    ∀ acc : List β, l.foldl (fun a b => a ++ [g b]) acc = acc ++ l.map g := by
  induction l with
  | nil => simp
  | cons x xs ih => intro acc; simp [ih, List.append_assoc]

/-- Appending one produced list at a time is flat-mapping. -/
lemma foldl_append_flat {α β : Type} (f : α → List β) (l : List α) :
    ∀ acc : List β, l.foldl (fun a x => a ++ f x) acc = acc ++ l.flatMap f := by
  induction l with
  | nil => simp
  | cons x xs ih => intro acc; simp [ih, List.append_assoc]

/-- The nested accumulation of `search_barangay`'s loops produces exactly
the flattened traversal described by spec §4.2. -/
lemma searchResults_eq_spec (d : Dataset) (q : String) :
    searchResults d q = searchSpec d q := by
  unfold searchResults searchSpec
  simp only [foldl_append_one, foldl_append_flat]
  rfl

/-- Summing a flat-mapped list is summing the per-element sums. -/
lemma sum_flatMap_eq {α : Type} (f : α → List Nat) (l : List α) :
    (l.flatMap f).sum = (l.map fun x => (f x).sum).sum := by
  induction l with
  | nil => simp
  | cons x xs ih => simp [List.flatMap_cons, ih]

/-- The innermost stats loop adds each municipality's barangay-list length
to the running barangay total. -/
lemma stats_mun_foldl (muns : Assoc (List String)) :
    ∀ ab : Nat × Nat,
      muns.foldl (fun acc mp => (acc.1, acc.2 + mp.2.length)) ab
        = (ab.1, ab.2 + (muns.map fun mp => mp.2.length).sum) := by
  induction muns with
  | nil => simp
  | cons mp rest ih => intro ab; simp [ih, Nat.add_assoc]

/-- The middle stats loop adds each province's municipality count and all
its barangay-list lengths. -/
lemma stats_prov_foldl (provs : Assoc (Assoc (List String))) :
    ∀ ab : Nat × Nat,
      provs.foldl (fun acc pp =>
          pp.2.foldl (fun acc mp => (acc.1, acc.2 + mp.2.length))
            (acc.1 + pp.2.length, acc.2)) ab
        = (ab.1 + (provs.map fun pp => pp.2.length).sum,
           ab.2 + (provs.map fun pp =>
             (pp.2.map fun mp => mp.2.length).sum).sum) := by
  induction provs with
  | nil => simp
  | cons pp rest ih =>
    intro ab
    rw [List.foldl_cons, ih]
    simp [stats_mun_foldl, Nat.add_assoc]

/-- The outer stats loop over regions accumulates both totals. -/
lemma stats_region_foldl (d : Dataset) :
    ∀ ab : Nat × Nat,
      d.foldl (fun acc rp =>
          rp.2.foldl (fun acc pp =>
            pp.2.foldl (fun acc mp => (acc.1, acc.2 + mp.2.length))
              (acc.1 + pp.2.length, acc.2)) acc) ab
        = (ab.1 + (d.map fun rp =>
             (rp.2.map fun pp => pp.2.length).sum).sum,
           ab.2 + (d.map fun rp => (rp.2.map fun pp =>
             (pp.2.map fun mp => mp.2.length).sum).sum).sum) := by
  induction d with
  | nil => simp
  | cons rp rest ih =>
    intro ab
    rw [List.foldl_cons, ih]
    simp [stats_prov_foldl, Nat.add_assoc]

/-- Closed form of `get_stats`: each field is the corresponding nested
sum over the Dataset. -/
lemma get_stats_eq (d : Dataset) :
    get_stats d =
      ⟨d.length,
       (d.map fun rp => rp.2.length).sum,
       (d.map fun rp => (rp.2.map fun pp => pp.2.length).sum).sum,
       (d.map fun rp => (rp.2.map fun pp =>
         (pp.2.map fun mp => mp.2.length).sum).sum).sum,
       dataSourceStr⟩ := by
  unfold get_stats
  simp [stats_region_foldl]

/-! ### Dict lookup lemmas -/

lemma mapGet_cons_self {β : Type} (k : String) (v : β) (rest : Assoc β) :
    mapGet ((k, v) :: rest) k = some v := by
  simp [mapGet]

lemma mapGet_cons_ne {β : Type} {k k' : String} (v : β) (rest : Assoc β)
    (h : k' ≠ k) : mapGet ((k', v) :: rest) k = mapGet rest k := by
  simp [mapGet, h]

/-- A key misses the dict exactly when it equals none of the stored keys. -/
lemma mapGet_eq_none_iff {β : Type} (m : Assoc β) (k : String) :
    mapGet m k = none ↔ k ∉ m.map Prod.fst := by
  induction m with
  | nil => simp [mapGet]
  | cons kv rest ih =>
    by_cases h : kv.1 = k
    · subst h
      simp [mapGet]
    · simp [mapGet, h, ih, Ne.symm h]

/-! ### Raw traversal normalisation -/

/-- The raw inner municipality loop, flattened: a non-list barangays value
contributes nothing. -/
lemma raw_mun_foldl (q rn pn : String) (muns : Assoc RawBarangays) :
    ∀ acc : List SearchResult,
      muns.foldl (fun acc mp =>
          match mp.2 with
          | none => acc
          | some barangays =>
            ((barangays.filter fun b => matchesQuery q b).foldl
              (fun acc b => acc ++ [⟨b, mp.1, pn, rn⟩]) acc)) acc
        = acc ++ (muns.flatMap fun mp =>
            match mp.2 with
            | none => []
            | some barangays =>
              (barangays.filter fun b => matchesQuery q b).map
                fun b => ⟨b, mp.1, pn, rn⟩) := by
  induction muns with
  | nil => simp
  | cons mp rest ih =>
    intro acc
    rw [List.foldl_cons, ih]
    cases h : mp.2 <;> simp [h, foldl_append_one, List.append_assoc]

/-- The raw province loop, flattened: a non-dict municipalities value
contributes nothing. -/
lemma raw_prov_foldl (q rn : String) (provs : Assoc RawMunicipalities) :
    ∀ acc : List SearchResult,
      provs.foldl (fun acc pp =>
          match pp.2 with
          | none => acc
          | some municipalities =>
            municipalities.foldl (fun acc mp =>
              match mp.2 with
              | none => acc
              | some barangays =>
                ((barangays.filter fun b => matchesQuery q b).foldl
                  (fun acc b => acc ++ [⟨b, mp.1, pp.1, rn⟩]) acc)) acc) acc
        = acc ++ (provs.flatMap fun pp =>
            match pp.2 with
            | none => []
            | some municipalities =>
              municipalities.flatMap fun mp =>
                match mp.2 with
                | none => []
                | some barangays =>
                  (barangays.filter fun b => matchesQuery q b).map
                    fun b => ⟨b, mp.1, pp.1, rn⟩) := by
  induction provs with
  | nil => simp
  | cons pp rest ih =>
    intro acc
    rw [List.foldl_cons, ih]
    cases h : pp.2 <;> simp [h, raw_mun_foldl, List.append_assoc]

/-- The raw region loop, flattened. -/
lemma raw_region_foldl (q : String) (d : RawDataset) :
    ∀ acc : List SearchResult,
      d.foldl (fun acc rp =>
          rp.2.foldl (fun acc pp =>
            match pp.2 with
            | none => acc
            | some municipalities =>
              municipalities.foldl (fun acc mp =>
                match mp.2 with
                | none => acc
                | some barangays =>
                  ((barangays.filter fun b => matchesQuery q b).foldl
                    (fun acc b => acc ++ [⟨b, mp.1, pp.1, rp.1⟩]) acc)) acc)
            acc) acc
        = acc ++ (d.flatMap fun rp =>
            rp.2.flatMap fun pp =>
              match pp.2 with
              | none => []
              | some municipalities =>
                municipalities.flatMap fun mp =>
                  match mp.2 with
                  | none => []
                  | some barangays =>
                    (barangays.filter fun b => matchesQuery q b).map
                      fun b => ⟨b, mp.1, pp.1, rp.1⟩) := by
  induction d with
  | nil => simp
  | cons rp rest ih =>
    intro acc
    rw [List.foldl_cons, ih]
    simp [raw_prov_foldl, List.append_assoc]

/-- Raw search results are exactly the well-formed search results on the
pruned dataset: skipping a malformed subtree is traversing its pruned
empty replacement. -/
lemma searchResultsRaw_eq_prune (d : RawDataset) (q : String) :
    searchResultsRaw d q = searchResults (pruneRaw d) q := by
  rw [searchResults_eq_spec]
  unfold searchResultsRaw searchSpec pruneRaw
  rw [raw_region_foldl, List.nil_append, List.flatMap_map]
  apply List.flatMap_congr
  intro rp _
  rw [List.flatMap_map]
  apply List.flatMap_congr
  intro pp _
  cases hpp : pp.2 with
  | none => simp
  | some municipalities =>
    simp only [List.flatMap_map]
    apply List.flatMap_congr
    intro mp _
    cases hmp : mp.2 <;> simp

/-- The raw innermost stats loop: a non-list barangays value adds
nothing to the barangay total. -/
lemma raw_stats_mun_foldl (muns : Assoc RawBarangays) :
    ∀ ab : Nat × Nat,
      muns.foldl (fun acc mp =>
          match mp.2 with
          | none => acc
          | some barangays => (acc.1, acc.2 + barangays.length)) ab
        = (ab.1, ab.2 + (muns.map fun mp => (mp.2.getD []).length).sum) := by
  induction muns with
  | nil => simp
  | cons mp rest ih =>
    intro ab
    rw [List.foldl_cons, ih]
    cases h : mp.2 <;> simp [h, Nat.add_assoc]

/-- The raw middle stats loop: a non-dict municipalities value adds
nothing to either total. -/
lemma raw_stats_prov_foldl (provs : Assoc RawMunicipalities) :
    ∀ ab : Nat × Nat,
      provs.foldl (fun acc pp =>
          match pp.2 with
          | none => acc
          | some municipalities =>
            municipalities.foldl (fun acc mp =>
                match mp.2 with
                | none => acc
                | some barangays => (acc.1, acc.2 + barangays.length))
              (acc.1 + municipalities.length, acc.2)) ab
        = (ab.1 + (provs.map fun pp => (pp.2.getD []).length).sum,
           ab.2 + (provs.map fun pp =>
             ((pp.2.getD []).map fun mp => (mp.2.getD []).length).sum).sum) := by
  induction provs with
  | nil => simp
  | cons pp rest ih =>
    intro ab
    rw [List.foldl_cons, ih]
    cases h : pp.2 <;> simp [h, raw_stats_mun_foldl, Nat.add_assoc]

/-- The raw outer stats loop over regions. -/
lemma raw_stats_region_foldl (d : RawDataset) :
    ∀ ab : Nat × Nat,
      d.foldl (fun acc rp =>
          rp.2.foldl (fun acc pp =>
            match pp.2 with
            | none => acc
            | some municipalities =>
              municipalities.foldl (fun acc mp =>
                  match mp.2 with
                  | none => acc
                  | some barangays => (acc.1, acc.2 + barangays.length))
                (acc.1 + municipalities.length, acc.2)) acc) ab
        = (ab.1 + (d.map fun rp =>
             (rp.2.map fun pp => (pp.2.getD []).length).sum).sum,
           ab.2 + (d.map fun rp => (rp.2.map fun pp =>
             ((pp.2.getD []).map fun mp =>
               (mp.2.getD []).length).sum).sum).sum) := by
  induction d with
  | nil => simp
  | cons rp rest ih =>
    intro ab
    rw [List.foldl_cons, ih]
    simp [raw_stats_prov_foldl, Nat.add_assoc]

/-- Raw stats are exactly the well-formed stats of the pruned dataset. -/
lemma get_stats_raw_eq_prune (d : RawDataset) :
    get_stats_raw d = get_stats (pruneRaw d) := by
  rw [get_stats_eq]
  unfold get_stats_raw
  rw [raw_stats_region_foldl]
  simp only [Nat.zero_add]
  congr 1
  · simp [pruneRaw]
  · simp only [pruneRaw, List.map_map]
    apply congrArg List.sum
    apply List.map_congr_left
    intro rp _
    simp
  · simp only [pruneRaw, List.map_map]
    apply congrArg List.sum
    apply List.map_congr_left
    intro rp _
    apply congrArg List.sum
    simp only [List.map_map]
    apply List.map_congr_left
    intro pp _
    cases h : pp.2 <;> simp [h]
  · simp only [pruneRaw, List.map_map]
    apply congrArg List.sum
    apply List.map_congr_left
    intro rp _
    apply congrArg List.sum
    simp only [List.map_map]
    apply List.map_congr_left
    intro pp _
    cases h : pp.2 with
    | none => simp [h]
    | some municipalities =>
      simp only [Function.comp_apply, h, Option.getD_some, List.map_map]
      apply congrArg List.sum
      apply List.map_congr_left
      intro mp _
      cases hm : mp.2 <;> simp [hm]

/-! ### Enumeration-sum lemmas (for the stats/lookup consistency claim) -/

/-- The per-region term of `enumBarangayTotal` reduces to the region's own
nested enumeration. -/
lemma enum_region_term (d : Dataset) (r : String) :
    ((okOrEmpty (get_provinces d r)).map fun p =>
      ((okOrEmpty (get_municipalities d r p)).map fun m =>
        (okOrEmpty (get_barangays d r p m)).length).sum).sum
      = match mapGet d r with
        | none => 0
        | some provs => enumProvTotal provs := by
  cases h : mapGet d r with
  | none => simp [okOrEmpty, get_provinces, h]
  | some provs =>
    simp only [okOrEmpty, get_provinces, get_municipalities, get_barangays, h]
    unfold enumProvTotal
    apply congrArg List.sum
    apply List.map_congr_left
    intro p _
    cases hp : mapGet provs p with
    | none => simp [hp]
    | some muns =>
      simp only [hp]
      unfold enumMunTotal
      apply congrArg List.sum
      apply List.map_congr_left
      intro m _
      cases hm : mapGet muns m <;> simp [hm]

/-- With unique municipality keys, enumerating a municipality map by its
keys and looking each key back up recovers every barangay list once. -/
lemma enumMunTotal_eq (muns : Assoc (List String))
    (h : (muns.map Prod.fst).Nodup) :
    enumMunTotal muns = (muns.map fun mp => mp.2.length).sum := by
  induction muns with
  | nil => simp [enumMunTotal]
  | cons kv rest ih =>
    obtain ⟨k, v⟩ := kv
    rw [List.map_cons, List.nodup_cons] at h
    obtain ⟨hk, hrest⟩ := h
    have ih' := ih hrest
    unfold enumMunTotal at ih' ⊢
    simp only [List.map_cons, List.sum_cons, mapGet_cons_self]
    have htail : (rest.map Prod.fst).map (fun m =>
        match mapGet ((k, v) :: rest) m with
        | none => 0
        | some bs => bs.length)
        = (rest.map Prod.fst).map (fun m =>
        match mapGet rest m with
        | none => 0
        | some bs => bs.length) := by
      apply List.map_congr_left
      intro m hm
      have hne : k ≠ m := fun e => hk (e ▸ hm)
      rw [mapGet_cons_ne _ _ hne]
    rw [htail, ih']

/-- With unique keys at province and municipality level, enumerating a
province map by its keys recovers every municipality map once. -/
lemma enumProvTotal_eq (provs : Assoc (Assoc (List String)))
    (hp : (provs.map Prod.fst).Nodup)
    (hm : ∀ pp ∈ provs, (pp.2.map Prod.fst).Nodup) :
    enumProvTotal provs
      = (provs.map fun pp => (pp.2.map fun mp => mp.2.length).sum).sum := by
  induction provs with
  | nil => simp [enumProvTotal]
  | cons kv rest ih =>
    obtain ⟨k, v⟩ := kv
    rw [List.map_cons, List.nodup_cons] at hp
    obtain ⟨hk, hrest⟩ := hp
    have ih' := ih hrest fun pp hpp => hm pp (List.mem_cons_of_mem _ hpp)
    unfold enumProvTotal at ih' ⊢
    simp only [List.map_cons, List.sum_cons, mapGet_cons_self]
    have htail : (rest.map Prod.fst).map (fun p =>
        match mapGet ((k, v) :: rest) p with
        | none => 0
        | some muns => enumMunTotal muns)
        = (rest.map Prod.fst).map (fun p =>
        match mapGet rest p with
        | none => 0
        | some muns => enumMunTotal muns) := by
      apply List.map_congr_left
      intro p hpmem
      have hne : k ≠ p := fun e => hk (e ▸ hpmem)
      rw [mapGet_cons_ne _ _ hne]
    rw [htail, ih', enumMunTotal_eq v (hm (k, v) (List.mem_cons_self _ _))]

/-- With unique keys at every level, the full enumeration sum recovers the
nested barangay-count sum. -/
lemma enum_top_eq (d : Dataset) (hd : NodupKeys d) :
    ((d.map Prod.fst).map fun r =>
      match mapGet d r with
      | none => 0
      | some provs => enumProvTotal provs).sum
      = (d.map fun rp =>
          (rp.2.map fun pp => (pp.2.map fun mp => mp.2.length).sum).sum).sum := by
  obtain ⟨h1, h2⟩ := hd
  induction d with
  | nil => simp
  | cons kv rest ih =>
    obtain ⟨k, v⟩ := kv
    rw [List.map_cons, List.nodup_cons] at h1
    obtain ⟨hk, hrest⟩ := h1
    have ih' := ih hrest fun rp hrp => h2 rp (List.mem_cons_of_mem _ hrp)
    simp only [List.map_cons, List.sum_cons, mapGet_cons_self]
    have htail : (rest.map Prod.fst).map (fun r =>
        match mapGet ((k, v) :: rest) r with
        | none => 0
        | some provs => enumProvTotal provs)
        = (rest.map Prod.fst).map (fun r =>
        match mapGet rest r with
        | none => 0
        | some provs => enumProvTotal provs) := by
      apply List.map_congr_left
      intro r hrmem
      have hne : k ≠ r := fun e => hk (e ▸ hrmem)
      rw [mapGet_cons_ne _ _ hne]
    have hkv := h2 (k, v) (List.mem_cons_self _ _)
    rw [htail, ih', enumProvTotal_eq v hkv.1 hkv.2]

/-- Closed form of the enumeration total. -/
lemma enumBarangayTotal_eq (d : Dataset) :
    enumBarangayTotal d
      = ((d.map Prod.fst).map fun r =>
          match mapGet d r with
          | none => 0
          | some provs => enumProvTotal provs).sum := by
  unfold enumBarangayTotal get_regions
  apply congrArg List.sum
  apply List.map_congr_left
  intro r _
  exact enum_region_term d r

/-! ### Search characterisation lemmas -/

/-- Success case of `search_barangay`, characterised by the spec-side
traversal. -/
lemma search_barangay_ok_iff (d : Dataset) (q : String) (o : SearchOutput) :
    search_barangay d q = .ok o ↔
      searchSpec d q ≠ [] ∧
        o = ⟨q, searchSpec d q, (searchSpec d q).length⟩ := by
  unfold search_barangay
  rw [searchResults_eq_spec]
  by_cases h : searchSpec d q = [] <;> simp [h, eq_comm]

/-- Failure case of `search_barangay`. -/
lemma search_barangay_error_iff (d : Dataset) (q : String) :
    search_barangay d q = .error (.noMatches q) ↔ searchSpec d q = [] := by
  unfold search_barangay
  rw [searchResults_eq_spec]
  by_cases h : searchSpec d q = [] <;> simp [h]

/-- The search traversal is empty exactly when no barangay occurrence in
the Dataset matches the query. -/
lemma searchSpec_eq_nil_iff (d : Dataset) (q : String) :
    searchSpec d q = [] ↔
      ∀ b ∈ barangayLeaves d, matchesQuery q b = false := by
  unfold searchSpec barangayLeaves
  simp only [List.flatMap_eq_nil_iff, List.map_eq_nil_iff,
    List.filter_eq_nil_iff, List.mem_flatMap, Bool.not_eq_true]
  constructor
  · rintro h b ⟨rp, hrp, pp, hpp, mp, hmp, hb⟩
    exact h rp hrp pp hpp mp hmp b hb
  · intro h rp hrp pp hpp mp hmp b hb
    exact h b ⟨rp, hrp, pp, hpp, mp, hmp, hb⟩

/-- The empty needle occurs in every haystack. -/
lemma containsChars_nil (hay : List Char) : containsChars [] hay = true := by
  cases hay <;> simp [containsChars, isPrefixOfChars]

/-- The empty query matches every barangay name. -/
lemma matchesQuery_empty (b : String) : matchesQuery "" b = true := by
  have h : matchesQuery "" b = containsChars [] (lowerChars b) := rfl
  rw [h, containsChars_nil]

/-- With the empty query the search traversal keeps every occurrence. -/
lemma searchSpec_empty_query (d : Dataset) :
    searchSpec d "" = allBarangayRecords d := by
  unfold searchSpec allBarangayRecords
  apply List.flatMap_congr
  intro rp _
  apply List.flatMap_congr
  intro pp _
  apply List.flatMap_congr
  intro mp _
  rw [List.filter_eq_self.mpr fun b _ => matchesQuery_empty b]

/-- The number of records of the full traversal is the stats barangay
total. -/
lemma length_allBarangayRecords (d : Dataset) :
    (allBarangayRecords d).length = (get_stats d).total_barangays := by
  rw [get_stats_eq]
  unfold allBarangayRecords
  simp only [List.length_flatMap, List.length_map, List.map_map]
  apply congrArg List.sum
  apply List.map_congr_left
  intro rp _
  simp only [Function.comp_apply, List.length_flatMap, List.map_map]
  apply congrArg List.sum
  apply List.map_congr_left
  intro pp _
  simp only [Function.comp_apply, List.length_flatMap, List.map_map]
  apply congrArg List.sum
  apply List.map_congr_left
  intro mp _
  simp

/-- Queries with the same lowercasing produce the same traversal. -/
lemma searchSpec_congr_query (d : Dataset) {q1 q2 : String}
    (h : lowerChars q1 = lowerChars q2) :
    searchSpec d q1 = searchSpec d q2 := by
  unfold searchSpec
  apply List.flatMap_congr
  intro rp _
  apply List.flatMap_congr
  intro pp _
  apply List.flatMap_congr
  intro mp _
  have hb : ∀ b, matchesQuery q1 b = matchesQuery q2 b := by
    intro b
    unfold matchesQuery
    rw [h]
  rw [List.filter_congr fun b _ => hb b]

/-! ### Claim theorems -/

/-- C1: for every Dataset and query, a successful `search_barangay`
returns exactly one record `{barangay, municipality, province, region}`
per barangay occurrence whose lowercased name contains the lowercased
query (duplicate occurrences emitted once each), in traversal order —
regions in Dataset order, then provinces, municipalities and barangays in
stored order (this is `searchSpec`); and the empty query matches every
barangay. -/
theorem search_results_are_matching_traversal (d : Dataset) (q : String) :
    (∀ o : SearchOutput, search_barangay d q = .ok o →
      o.results = searchSpec d q) ∧
    (∀ b : String, matchesQuery "" b = true) := by
  constructor
  · intro o h
    obtain ⟨-, rfl⟩ := (search_barangay_ok_iff d q o).mp h
    rfl
  · exact matchesQuery_empty

/-- Witness for C1 at the example dataset and query "poblacion". -/
theorem search_results_are_matching_traversal_witness :
    (SearchOutput.mk "poblacion" examplePoblacionResults 3).results
      = searchSpec exampleDataset "poblacion" ∧
    matchesQuery "" "Poblacion" = true :=
  ⟨(search_results_are_matching_traversal exampleDataset "poblacion").1
      ⟨"poblacion", examplePoblacionResults, 3⟩ rfl,
   (search_results_are_matching_traversal exampleDataset "poblacion").2
      "Poblacion"⟩

/-- C2: for every Dataset, `get_stats` never fails and returns the region
count (number of top-level keys), the province count (sum over regions),
the municipality count (sum over region/province pairs) and the barangay
count (sum of barangay-list lengths, counting duplicates); on the empty
Dataset all four counts are zero. -/
theorem stats_counts_all_levels (d : Dataset) :
    (get_stats d).total_regions = d.length ∧
    (get_stats d).total_provinces = (d.map fun rp => rp.2.length).sum ∧
    (get_stats d).total_municipalities
      = (d.flatMap fun rp => rp.2.map fun pp => pp.2.length).sum ∧
    (get_stats d).total_barangays
      = (d.flatMap fun rp => rp.2.flatMap fun pp =>
          pp.2.map fun mp => mp.2.length).sum ∧
    get_stats ([] : Dataset) = ⟨0, 0, 0, 0, dataSourceStr⟩ := by
  rw [get_stats_eq]
  refine ⟨rfl, rfl, ?_, ?_, rfl⟩
  · rw [sum_flatMap_eq]
  · simp [sum_flatMap_eq]

/-- C3: for every Dataset and all three name arguments, `get_barangays`
fails with the `NotFound` error of the first missing level, in the order
region, then province, then municipality — the region error is the same
for all deeper arguments, so no deeper level is consulted — and returns
the stored barangay list when all three keys exist. -/
theorem listBarangays_notfound_shortcircuit (d : Dataset)
    (r p m : String) :
    (mapGet d r = none →
      get_barangays d r p m = .error (.notFoundRegion r)) ∧
    (∀ provs, mapGet d r = some provs → mapGet provs p = none →
      get_barangays d r p m = .error (.notFoundProvince r p)) ∧
    (∀ provs muns, mapGet d r = some provs → mapGet provs p = some muns →
      mapGet muns m = none →
      get_barangays d r p m = .error (.notFoundMunicipality p m)) ∧
    (∀ provs muns bs, mapGet d r = some provs →
      mapGet provs p = some muns → mapGet muns m = some bs →
      get_barangays d r p m = .ok bs) := by
  refine ⟨?_, ?_, ?_, ?_⟩
  · intro h
    simp [get_barangays, h]
  · intro provs h1 h2
    simp [get_barangays, h1, h2]
  · intro provs muns h1 h2 h3
    simp [get_barangays, h1, h2, h3]
  · intro provs muns bs h1 h2 h3
    simp [get_barangays, h1, h2, h3]

/-- Witness for C3: all four branches at concrete inputs. -/
theorem listBarangays_notfound_shortcircuit_witness :
    get_barangays exampleDataset "RegionC" "ProvinceX" "MunicipalityY"
      = .error (.notFoundRegion "RegionC") ∧
    get_barangays exampleDataset "RegionA" "ProvinceQ" "MunicipalityY"
      = .error (.notFoundProvince "RegionA" "ProvinceQ") ∧
    get_barangays exampleDataset "RegionA" "ProvinceX" "MunicipalityQ"
      = .error (.notFoundMunicipality "ProvinceX" "MunicipalityQ") ∧
    get_barangays exampleDataset "RegionA" "ProvinceX" "MunicipalityY"
      = .ok ["North Poblacion", "South Poblacion"] :=
  ⟨(listBarangays_notfound_shortcircuit exampleDataset "RegionC"
      "ProvinceX" "MunicipalityY").1 rfl,
   (listBarangays_notfound_shortcircuit exampleDataset "RegionA"
      "ProvinceQ" "MunicipalityY").2.1 _ rfl rfl,
   (listBarangays_notfound_shortcircuit exampleDataset "RegionA"
      "ProvinceX" "MunicipalityQ").2.2.1 _ _ rfl rfl rfl,
   (listBarangays_notfound_shortcircuit exampleDataset "RegionA"
      "ProvinceX" "MunicipalityY").2.2.2 _ _ _ rfl rfl rfl⟩

/-- C4: for every Dataset and query, `search_barangay` fails with
`NoMatches(query)` exactly when no barangay occurrence matches the query,
and a successful result never carries an empty record sequence. -/
theorem search_noMatches_iff_zero_matches (d : Dataset) (q : String) :
    (search_barangay d q = .error (.noMatches q) ↔
      ∀ b ∈ barangayLeaves d, matchesQuery q b = false) ∧
    (∀ o : SearchOutput, search_barangay d q = .ok o →
      o.results ≠ []) := by
  constructor
  · rw [search_barangay_error_iff, searchSpec_eq_nil_iff]
  · intro o h
    obtain ⟨hne, rfl⟩ := (search_barangay_ok_iff d q o).mp h
    simpa using hne

/-- Witness for C4: a failing and a succeeding query on the example
dataset. -/
theorem search_noMatches_iff_zero_matches_witness :
    search_barangay exampleDataset "zzz" = .error (.noMatches "zzz") ∧
    (SearchOutput.mk "poblacion" examplePoblacionResults 3).results
      ≠ [] :=
  ⟨(search_noMatches_iff_zero_matches exampleDataset "zzz").1.mpr
      (by decide),
   (search_noMatches_iff_zero_matches exampleDataset "poblacion").2
      ⟨"poblacion", examplePoblacionResults, 3⟩ rfl⟩

/-- C5 counterexample: on the empty Dataset, `search_barangay ""` does not
return the (empty) sequence of all barangays — it fails with
`NoMatches("")` — although `get_stats` reports a barangay count of 0, so
the claim's unconditional "returns" is false. -/
theorem search_empty_query_fails_on_empty_dataset :
    search_barangay ([] : Dataset) "" = .error (.noMatches "") ∧
    (get_stats ([] : Dataset)).total_barangays = 0 :=
  ⟨rfl, rfl⟩

/-- C5 (amended): for every Dataset containing at least one barangay,
`search_barangay ""` succeeds and returns every barangay occurrence in
traversal order, with count equal to the stats barangay total; on a
barangay-free Dataset it instead fails with `NoMatches("")`. -/
theorem search_empty_query_returns_all (d : Dataset)
    (h : allBarangayRecords d ≠ []) :
    search_barangay d "" =
      .ok ⟨"", allBarangayRecords d, (get_stats d).total_barangays⟩ := by
  rw [search_barangay_ok_iff]
  refine ⟨?_, ?_⟩
  · rw [searchSpec_empty_query]
    exact h
  · rw [searchSpec_empty_query, length_allBarangayRecords]

/-- Witness for the amended C5 at the example dataset. -/
theorem search_empty_query_returns_all_witness :
    allBarangayRecords exampleDataset ≠ [] ∧
    search_barangay exampleDataset "" =
      .ok ⟨"", allBarangayRecords exampleDataset,
           (get_stats exampleDataset).total_barangays⟩ :=
  ⟨by decide, search_empty_query_returns_all exampleDataset (by decide)⟩

/-- C6: for every Dataset (with the §3 invariant of unique sibling keys,
automatic for Python dicts), the stats barangay total equals the sum of
`get_barangays` lengths over every triple enumerable via `get_regions`,
`get_provinces` and `get_municipalities`. -/
theorem stats_barangays_eq_enumeration (d : Dataset)
    (h : NodupKeys d) :
    (get_stats d).total_barangays = enumBarangayTotal d := by
  rw [enumBarangayTotal_eq, enum_top_eq d h, get_stats_eq]

/-- Witness for C6 at the example dataset. -/
theorem stats_barangays_eq_enumeration_witness :
    NodupKeys exampleDataset ∧
    (get_stats exampleDataset).total_barangays
      = enumBarangayTotal exampleDataset :=
  ⟨by decide, stats_barangays_eq_enumeration exampleDataset (by decide)⟩

/-- C7: `search_barangay` is case-insensitive in its query — two queries
with equal lowercasings produce identical result lists (and identical
counts), and one fails with its `NoMatches` exactly when the other fails
with its own. -/
theorem search_case_insensitive (d : Dataset) (q1 q2 : String)
    (h : lowerChars q1 = lowerChars q2) :
    searchResults d q1 = searchResults d q2 ∧
    (search_barangay d q1 = .error (.noMatches q1) ↔
      search_barangay d q2 = .error (.noMatches q2)) ∧
    (∀ o1 o2 : SearchOutput, search_barangay d q1 = .ok o1 →
      search_barangay d q2 = .ok o2 →
      o1.results = o2.results ∧ o1.count = o2.count) := by
  have hs : searchSpec d q1 = searchSpec d q2 := searchSpec_congr_query d h
  refine ⟨?_, ?_, ?_⟩
  · rw [searchResults_eq_spec, searchResults_eq_spec, hs]
  · rw [search_barangay_error_iff, search_barangay_error_iff, hs]
  · intro o1 o2 h1 h2
    obtain ⟨-, rfl⟩ := (search_barangay_ok_iff d q1 o1).mp h1
    obtain ⟨-, rfl⟩ := (search_barangay_ok_iff d q2 o2).mp h2
    constructor <;> simp [hs]

/-- Witness for C7 with "POBLACION" versus "poblacion". -/
theorem search_case_insensitive_witness :
    lowerChars "POBLACION" = lowerChars "poblacion" ∧
    searchResults exampleDataset "POBLACION"
      = searchResults exampleDataset "poblacion" :=
  ⟨by decide,
   (search_case_insensitive exampleDataset "POBLACION" "poblacion"
      (by decide)).1⟩

/-- C8: for every Dataset and region name, `get_provinces` fails with
`NotFound(region)` when the region is not a stored key, and otherwise
returns exactly the stored province keys of that region in stored
order. -/
theorem listProvinces_spec (d : Dataset) (r : String) :
    (r ∉ d.map Prod.fst →
      get_provinces d r = .error (.notFoundRegion r)) ∧
    (∀ provs, mapGet d r = some provs →
      get_provinces d r = .ok (provs.map Prod.fst)) := by
  constructor
  · intro h
    have hn : mapGet d r = none := (mapGet_eq_none_iff d r).mpr h
    simp [get_provinces, hn]
  · intro provs h
    simp [get_provinces, h]

/-- Witness for C8: a missing and a present region. -/
theorem listProvinces_spec_witness :
    get_provinces exampleDataset "RegionC"
      = .error (.notFoundRegion "RegionC") ∧
    get_provinces exampleDataset "RegionA" = .ok ["ProvinceX"] :=
  ⟨(listProvinces_spec exampleDataset "RegionC").1 (by decide),
   (listProvinces_spec exampleDataset "RegionA").2 _ rfl⟩

/-- C9: every exact-match lookup compares its argument to the stored keys
by plain string equality — an argument equal to no stored key at its
level (even one differing only in case or whitespace) yields the
`NotFound` error of that level, for `get_provinces`,
`get_municipalities` and `get_barangays` alike. -/
theorem lookups_require_exact_keys (d : Dataset) (r p m : String) :
    (r ∉ d.map Prod.fst →
      get_provinces d r = .error (.notFoundRegion r) ∧
      get_municipalities d r p = .error (.notFoundRegion r) ∧
      get_barangays d r p m = .error (.notFoundRegion r)) ∧
    (∀ provs, mapGet d r = some provs → p ∉ provs.map Prod.fst →
      get_municipalities d r p = .error (.notFoundProvince r p) ∧
      get_barangays d r p m = .error (.notFoundProvince r p)) ∧
    (∀ provs muns, mapGet d r = some provs →
      mapGet provs p = some muns → m ∉ muns.map Prod.fst →
      get_barangays d r p m = .error (.notFoundMunicipality p m)) := by
  refine ⟨?_, ?_, ?_⟩
  · intro h
    have hn := (mapGet_eq_none_iff d r).mpr h
    exact ⟨by simp [get_provinces, hn], by simp [get_municipalities, hn],
      by simp [get_barangays, hn]⟩
  · intro provs h1 h2
    have hn := (mapGet_eq_none_iff provs p).mpr h2
    exact ⟨by simp [get_municipalities, h1, hn],
      by simp [get_barangays, h1, hn]⟩
  · intro provs muns h1 h2 h3
    have hn := (mapGet_eq_none_iff muns m).mpr h3
    simp [get_barangays, h1, h2, hn]

/-- Witness for C9: lookups differing from stored keys only in case or in
surrounding whitespace all fail. -/
theorem lookups_require_exact_keys_witness :
    get_provinces exampleDataset "regiona"
      = .error (.notFoundRegion "regiona") ∧
    get_municipalities exampleDataset "RegionA" "provincex"
      = .error (.notFoundProvince "RegionA" "provincex") ∧
    get_barangays exampleDataset "RegionA" "ProvinceX" " MunicipalityY"
      = .error (.notFoundMunicipality "ProvinceX" " MunicipalityY") :=
  ⟨((lookups_require_exact_keys exampleDataset "regiona" "ProvinceX"
      "MunicipalityY").1 (by decide)).1,
   ((lookups_require_exact_keys exampleDataset "RegionA" "provincex"
      "MunicipalityY").2.1 _ rfl (by decide)).1,
   (lookups_require_exact_keys exampleDataset "RegionA" "ProvinceX"
      " MunicipalityY").2.2 _ _ rfl rfl (by decide)⟩

/-- C10 counterexample: on a Dataset whose only subtree is malformed,
`search_barangay_raw` does fail (with `NoMatches`), and a municipality
whose barangays value is not a list is still counted in
`total_municipalities`, contrary to the claim. -/
theorem malformed_dataset_counterexample :
    search_barangay_raw [("R", [("P", (none : RawMunicipalities))])] "x"
      = .error (.noMatches "x") ∧
    (get_stats_raw [("R", [("P",
      some [("M", (none : RawBarangays))])])]).total_municipalities
      = 1 :=
  ⟨rfl, rfl⟩

/-- C10 (amended): on a structurally malformed Dataset neither
`search_barangay_raw` nor `get_stats_raw` crashes — each behaves exactly
as its well-formed counterpart on the pruned Dataset in which every
non-mapping municipalities value and every non-sequence barangays value
is replaced by an empty collection.  In particular stats always succeeds,
still counts every province (and every municipality key, including those
with malformed barangays values), and excludes malformed values from the
barangay total; search excludes malformed subtrees from its results but
still fails with `NoMatches` when no matches remain. -/
theorem raw_operations_eq_pruned (d : RawDataset) (q : String) :
    search_barangay_raw d q = search_barangay (pruneRaw d) q ∧
    get_stats_raw d = get_stats (pruneRaw d) := by
  constructor
  · unfold search_barangay_raw search_barangay
    rw [searchResultsRaw_eq_prune]
  · exact get_stats_raw_eq_prune d

end BarangayExplorer
